import Mathlib

/-!
Shallow embedding of the stealth-browser-mcp core: the browser-instance
lifecycle manager (src/browser_manager.py) and the network
interception/correlation engine (src/network_interceptor.py).

Python dictionaries that are only ever read and written by key are embedded
as functions `String → Option α`; per-instance ordered id lists and header
maps are embedded as Lean lists.  Byte strings are `List Nat` (each byte
< 256 where it matters).  Timestamps are opaque `Nat` values: `datetime`
serialization via `isoformat`/`fromisoformat` round-trips exactly, so the
JSON timestamp field is embedded as the same `Nat`.
-/

namespace StealthBrowser

/-- Update one key of a dict embedded as a function (Python `d[k] = v`). -/
def fupd {α : Type} (f : String → Option α) (k : String) (v : α) : String → Option α :=
  fun k' => if k' = k then some v else f k'

/-- Delete one key of a dict embedded as a function (Python `del d[k]` / `d.pop(k, None)`). -/
def fdel {α : Type} (f : String → Option α) (k : String) : String → Option α :=
  fun k' => if k' = k then none else f k'

/-- Python truthiness of an optional string argument: `None` and `""` are falsy. -/
def strTruthy : Option String → Bool
  | none => false
  | some s => s ≠ ""

/-- Python truthiness of an optional integer argument: `None` and `0` are falsy. -/
def intTruthy : Option Int → Bool
  | none => false
  | some n => n ≠ 0

/-- ASCII lower-casing of one character (Python `str.lower`; every
case-relevant string in this development is ASCII). -/
def lowerChar (c : Char) : Char :=
  if 65 ≤ c.toNat ∧ c.toNat ≤ 90 then Char.ofNat (c.toNat + 32) else c

/-- ASCII upper-casing of one character (Python `str.upper`). -/
def upperChar (c : Char) : Char :=
  if 97 ≤ c.toNat ∧ c.toNat ≤ 122 then Char.ofNat (c.toNat - 32) else c

/-- Python `s.lower()`. -/
def pyLower (s : String) : String := String.mk (s.toList.map lowerChar)

/-- Python `s.upper()`. -/
def pyUpper (s : String) : String := String.mk (s.toList.map upperChar)

/-- Case-insensitive substring test, embedding Python `needle.lower() in haystack.lower()`. -/
def substrCI (needle haystack : String) : Bool :=
  decide ((pyLower needle).toList <:+: (pyLower haystack).toList)

@[simp] theorem fupd_self {α : Type} (f : String → Option α) (k : String) (v : α) :
    fupd f k v k = some v := by
  simp [fupd]

@[simp] theorem fupd_ne {α : Type} (f : String → Option α) (k k' : String) (v : α)
    (h : k' ≠ k) : fupd f k v k' = f k' := by
  simp [fupd, h]

@[simp] theorem fdel_self {α : Type} (f : String → Option α) (k : String) :
    fdel f k k = none := by
  simp [fdel]

@[simp] theorem fdel_ne {α : Type} (f : String → Option α) (k k' : String)
    (h : k' ≠ k) : fdel f k k' = f k' := by
  simp [fdel, h]

/-! ### Base64 (Python `base64.b64encode` / `base64.b64decode`)

Bytes are encoded three at a time into four sextet characters; a final group
of one byte yields two characters and `==`, a final group of two bytes
yields three characters and `=`. -/

/-- The base64 alphabet character for a sextet value (0–63). -/
def b64char (s : Nat) : Char :=
  if s < 26 then Char.ofNat (65 + s)
  else if s < 52 then Char.ofNat (97 + (s - 26))
  else if s < 62 then Char.ofNat (48 + (s - 52))
  else if s = 62 then '+'
  else '/'

/-- The sextet value of a base64 alphabet character. -/
def b64val (c : Char) : Nat :=
  if 65 ≤ c.toNat ∧ c.toNat ≤ 90 then c.toNat - 65
  else if 97 ≤ c.toNat ∧ c.toNat ≤ 122 then c.toNat - 97 + 26
  else if 48 ≤ c.toNat ∧ c.toNat ≤ 57 then c.toNat - 48 + 52
  else if c = '+' then 62
  else if c = '/' then 63
  else 0

/-- Base64-encode a byte list into characters, with `=` padding. -/
def b64encodeBytes : List Nat → List Char
  | [] => []
  | [b0] =>
      [b64char (b0 / 4), b64char (b0 % 4 * 16), '=', '=']
  | [b0, b1] =>
      [b64char (b0 / 4), b64char (b0 % 4 * 16 + b1 / 16), b64char (b1 % 16 * 4), '=']
  | b0 :: b1 :: b2 :: rest =>
      b64char (b0 / 4) :: b64char (b0 % 4 * 16 + b1 / 16) ::
        b64char (b1 % 16 * 4 + b2 / 64) :: b64char (b2 % 64) :: b64encodeBytes rest

/-- Base64-decode a character list (padding-aware) back into bytes. -/
def b64decodeChars : List Char → List Nat
  | c0 :: c1 :: c2 :: c3 :: rest =>
      if c2 = '=' then [b64val c0 * 4 + b64val c1 / 16]
      else if c3 = '=' then
        [b64val c0 * 4 + b64val c1 / 16, b64val c1 % 16 * 16 + b64val c2 / 4]
      else
        (b64val c0 * 4 + b64val c1 / 16) :: (b64val c1 % 16 * 16 + b64val c2 / 4) ::
          (b64val c2 % 4 * 64 + b64val c3) :: b64decodeChars rest
  | _ => []

theorem b64val_b64char : ∀ s, s < 64 → b64val (b64char s) = s := by decide

theorem b64char_ne_pad : ∀ s, s < 64 → b64char s ≠ '=' := by decide

theorem b64encodeBytes_ne_nil : ∀ (bs : List Nat), bs ≠ [] → b64encodeBytes bs ≠ []
  | [], h => absurd rfl h
  | [_], _ => by simp [b64encodeBytes]
  | [_, _], _ => by simp [b64encodeBytes]
  | _ :: _ :: _ :: _, _ => by simp [b64encodeBytes]

/-- Decoding is a left inverse of encoding on genuine byte lists. -/
theorem b64decode_b64encode : ∀ (bs : List Nat), (∀ b ∈ bs, b < 256) →
    b64decodeChars (b64encodeBytes bs) = bs
  | [], _ => rfl
  | [b0], h => by
      have hb0 : b0 < 256 := h b0 (by simp)
      have e0 : b64val (b64char (b0 / 4)) = b0 / 4 := b64val_b64char _ (by omega)
      have e1 : b64val (b64char (b0 % 4 * 16)) = b0 % 4 * 16 := b64val_b64char _ (by omega)
      simp [b64encodeBytes, b64decodeChars, e0, e1]
      omega
  | [b0, b1], h => by
      have hb0 : b0 < 256 := h b0 (by simp)
      have hb1 : b1 < 256 := h b1 (by simp)
      have hc2 : b64char (b1 % 16 * 4) ≠ '=' := b64char_ne_pad _ (by omega)
      have e0 : b64val (b64char (b0 / 4)) = b0 / 4 := b64val_b64char _ (by omega)
      have e1 : b64val (b64char (b0 % 4 * 16 + b1 / 16)) = b0 % 4 * 16 + b1 / 16 :=
        b64val_b64char _ (by omega)
      have e2 : b64val (b64char (b1 % 16 * 4)) = b1 % 16 * 4 := b64val_b64char _ (by omega)
      simp [b64encodeBytes, b64decodeChars, hc2, e0, e1, e2]
      constructor <;> omega
  | b0 :: b1 :: b2 :: rest, h => by
      have hb0 : b0 < 256 := h b0 (by simp)
      have hb1 : b1 < 256 := h b1 (by simp)
      have hb2 : b2 < 256 := h b2 (by simp)
      have hc2 : b64char (b1 % 16 * 4 + b2 / 64) ≠ '=' := b64char_ne_pad _ (by omega)
      have hc3 : b64char (b2 % 64) ≠ '=' := b64char_ne_pad _ (by omega)
      have e0 : b64val (b64char (b0 / 4)) = b0 / 4 := b64val_b64char _ (by omega)
      have e1 : b64val (b64char (b0 % 4 * 16 + b1 / 16)) = b0 % 4 * 16 + b1 / 16 :=
        b64val_b64char _ (by omega)
      have e2 : b64val (b64char (b1 % 16 * 4 + b2 / 64)) = b1 % 16 * 4 + b2 / 64 :=
        b64val_b64char _ (by omega)
      have e3 : b64val (b64char (b2 % 64)) = b2 % 64 := b64val_b64char _ (by omega)
      have ih := b64decode_b64encode rest (fun b hb => h b (by simp [hb]))
      simp [b64encodeBytes, b64decodeChars, hc2, hc3, e0, e1, e2, e3, ih]
      refine ⟨by omega, by omega, by omega⟩

/-! ### UTF-8 helpers -/

/-- Python `bytes.decode("utf-8", errors="ignore")`: well-formed 1–4 byte
sequences decode to their code point, anything else is dropped.  (CPython
additionally rejects overlong and surrogate encodings; no claim in this
development depends on those inputs.) -/
def decodeUtf8Ignore : List Nat → List Char
  | [] => []
  | b0 :: rest =>
    if b0 < 128 then Char.ofNat b0 :: decodeUtf8Ignore rest
    else if 194 ≤ b0 && b0 ≤ 223 then
      match rest with
      | b1 :: rest1 =>
        if 128 ≤ b1 && b1 ≤ 191 then
          Char.ofNat ((b0 - 192) * 64 + (b1 - 128)) :: decodeUtf8Ignore rest1
        else decodeUtf8Ignore (b1 :: rest1)
      | [] => []
    else if 224 ≤ b0 && b0 ≤ 239 then
      match rest with
      | b1 :: b2 :: rest2 =>
        if (128 ≤ b1 && b1 ≤ 191) && (128 ≤ b2 && b2 ≤ 191) then
          Char.ofNat ((b0 - 224) * 4096 + (b1 - 128) * 64 + (b2 - 128)) ::
            decodeUtf8Ignore rest2
        else decodeUtf8Ignore (b1 :: b2 :: rest2)
      | short => decodeUtf8Ignore short
    else if 240 ≤ b0 && b0 ≤ 244 then
      match rest with
      | b1 :: b2 :: b3 :: rest3 =>
        if (128 ≤ b1 && b1 ≤ 191) && ((128 ≤ b2 && b2 ≤ 191) && (128 ≤ b3 && b3 ≤ 191)) then
          Char.ofNat ((b0 - 240) * 262144 + (b1 - 128) * 4096 + (b2 - 128) * 64 + (b3 - 128)) ::
            decodeUtf8Ignore rest3
        else decodeUtf8Ignore (b1 :: b2 :: b3 :: rest3)
      | short => decodeUtf8Ignore short
    else decodeUtf8Ignore rest
termination_by l => l.length
decreasing_by all_goals simp <;> omega

/-- Python `str.encode("utf-8")` as a byte list. -/
def utf8Bytes (s : String) : List Nat := s.toUTF8.toList.map (fun b => b.toNat)

/-- `base64.b64encode(..).decode("utf-8")`: byte list to base64 string. -/
def b64encodeString (b : List Nat) : String := String.mk (b64encodeBytes b)

/-- `base64.b64decode(..)`: base64 string to byte list. -/
def b64decodeString (s : String) : List Nat := b64decodeChars s.toList

/-! ### Data model

The record classes live in `models.py`, which is not under `src/`.
Modelled from the spec: §3 lists the fields of `NetworkRequest`,
`NetworkResponse` and `BrowserInstance`; the constructor calls in
`network_interceptor.py` and `browser_manager.py` fix the field names. -/

/-- Lifecycle state of a browser instance (`models.BrowserState`).
Modelled from the spec: §4.1's state machine names the four states. -/
inductive BrowserState where
  | initializing
  | ready
  | error
  | closed
deriving DecidableEq, Repr

/-- One captured request record (`models.NetworkRequest`); immutable once created. -/
structure NetworkRequest where
  request_id : String
  instance_id : String
  url : String
  method : String
  headers : List (String × String)
  cookies : List (String × String)
  post_data : Option String
  resource_type : Option String
  timestamp : Nat
deriving DecidableEq, Repr

/-- One captured response record (`models.NetworkResponse`); immutable once created. -/
structure NetworkResponse where
  request_id : String
  status : Int
  headers : List (String × String)
  content_type : Option String
  body : Option (List Nat)
  timestamp : Nat
deriving DecidableEq, Repr

/-- Per-instance capture filter, the value stored by `set_capture_filters`
(Python dict with keys `"include"` and `"exclude"`). -/
structure CaptureFilter where
  include_types : List String
  exclude_types : List String
deriving DecidableEq, Repr

/-- The observable payload of one CDP `RequestWillBeSent` event, as read by
`_on_request`: `event.request_id`, `event.request.*`, and
`event.type.value` (absent when the event has no `type`). -/
structure RequestEvent where
  request_id : String
  url : String
  method : String
  headers : List (String × String)
  post_data : Option String
  resource_type : Option String
  timestamp : Nat
deriving DecidableEq, Repr

/-- Outcome of the best-effort `network.get_response_body` fetch inside
`_on_response`: the fetch failed / no tab (`none`), or returned
`(body, base64_encoded)` with the flag set or cleared. -/
inductive FetchedBody where
  | b64 (s : String)
  | raw (s : String)
deriving DecidableEq, Repr

/-- The observable payload of one CDP `ResponseReceived` event, as read by
`_on_response`, together with the body-fetch outcome. -/
structure ResponseEvent where
  request_id : String
  status : Int
  headers : List (String × String)
  mime_type : Option String
  fetched_body : Option FetchedBody
  timestamp : Nat
deriving DecidableEq, Repr

/-- The `NetworkInterceptor` collections: `_requests`, `_responses`,
`_instance_requests` and `_instance_filters` (all guarded by one lock, so a
handler's effect is one atomic state transition). -/
structure InterceptorState where
  requests : String → Option NetworkRequest
  responses : String → Option NetworkResponse
  instance_requests : String → Option (List String)
  instance_filters : String → Option CaptureFilter

/-- The interceptor's initial state (empty collections). -/
def InterceptorState.initial : InterceptorState :=
  ⟨fun _ => none, fun _ => none, fun _ => none, fun _ => none⟩

/-- First-match lookup in an embedded Python dict / header map. -/
def assocLookup (d : List (String × String)) (k : String) : Option String :=
  match d with
  | [] => none
  | (k', v) :: rest => if k' = k then some v else assocLookup rest k

/-- Python dict insertion on an association list: an existing key is
overwritten in place, a new key is appended. -/
def assocInsert (d : List (String × String)) (k v : String) : List (String × String) :=
  match d with
  | [] => [(k, v)]
  | (k', v') :: rest => if k' = k then (k, v) :: rest else (k', v') :: assocInsert rest k v

/-- Cookie parsing in `_on_request`: split the raw `Cookie` header value on
`"; "`, then split each piece at its first `=` (pieces without `=` are
skipped); a later duplicate name overwrites an earlier one. -/
def parseCookies (cookieStr : String) : List (String × String) :=
  (cookieStr.splitOn "; ").foldl
    (fun acc c =>
      if c.contains '=' then
        assocInsert acc (c.takeWhile (fun ch => ch ≠ '='))
          (c.drop ((c.takeWhile (fun ch => ch ≠ '=')).length + 1))
      else acc)
    []

/-- `setup_interception`: the state effect is initializing the instance's
ordered id list when absent (CDP enabling, URL blocking and handler
registration act on the external tab only). -/
def setup_interception (st : InterceptorState) (instance_id : String) : InterceptorState :=
  match st.instance_requests instance_id with
  | some _ => st
  | none => { st with instance_requests := fupd st.instance_requests instance_id [] }

/-- Python truthiness of the optional resource type (`None` and `""` falsy). -/
def rtTruthy : Option String → Bool
  | none => false
  | some s => s ≠ ""

/-- The request record `_on_request` builds from an event. -/
def requestRecordOf (instance_id : String) (ev : RequestEvent) : NetworkRequest :=
  { request_id := ev.request_id
    instance_id := instance_id
    url := ev.url
    method := ev.method
    headers := ev.headers
    cookies := match assocLookup ev.headers "Cookie" with
               | some cs => parseCookies cs
               | none => []
    post_data := ev.post_data
    resource_type := ev.resource_type
    timestamp := ev.timestamp }

/-- `_on_request`: read the instance's capture filter; a non-empty include
list drops an event whose (truthy) resource type is not a member
(case-insensitive), any exclude match drops it; otherwise store the record
and append its id to the instance's ordered id list.  When the instance's
id list was never initialized, the Python `append` raises `KeyError` after
the record was already stored, and the handler swallows the exception: the
record is stored but no list is touched. -/
def on_request (st : InterceptorState) (instance_id : String) (ev : RequestEvent) :
    InterceptorState :=
  let filters := (st.instance_filters instance_id).getD ⟨[], []⟩
  let rt := pyLower (ev.resource_type.getD "")
  if !filters.include_types.isEmpty && rtTruthy ev.resource_type &&
      !(filters.include_types.map pyLower).contains rt then
    st
  else if !filters.exclude_types.isEmpty && rtTruthy ev.resource_type &&
      (filters.exclude_types.map pyLower).contains rt then
    st
  else
    let st' := { st with requests := fupd st.requests ev.request_id (requestRecordOf instance_id ev) }
    match st.instance_requests instance_id with
    | some l =>
        { st' with instance_requests := fupd st'.instance_requests instance_id (l ++ [ev.request_id]) }
    | none => st'

/-- The response record `_on_response` builds from an event: the body is the
base64-decoded fetch result, the UTF-8 bytes of a raw fetch result, or
absent when the fetch failed. -/
def responseRecordOf (ev : ResponseEvent) : NetworkResponse :=
  { request_id := ev.request_id
    status := ev.status
    headers := ev.headers
    content_type := ev.mime_type
    body := match ev.fetched_body with
            | none => none
            | some (.b64 s) => some (b64decodeString s)
            | some (.raw s) => some (utf8Bytes s)
    timestamp := ev.timestamp }

/-- `_on_response`: store the response record under its request id,
unconditionally — the response path applies no capture filter. -/
def on_response (st : InterceptorState) (_instance_id : String) (ev : ResponseEvent) :
    InterceptorState :=
  { st with responses := fupd st.responses ev.request_id (responseRecordOf ev) }

/-- `set_capture_filters`: replace the instance's filter
(`include_types or []` / `exclude_types or []`). -/
def set_capture_filters (st : InterceptorState) (instance_id : String)
    (include_types exclude_types : Option (List String)) : InterceptorState :=
  let filt : CaptureFilter := ⟨include_types.getD [], exclude_types.getD []⟩
  { st with instance_filters := fupd st.instance_filters instance_id filt }

/-- `get_capture_filters`. -/
def get_capture_filters (st : InterceptorState) (instance_id : String) : CaptureFilter :=
  (st.instance_filters instance_id).getD ⟨[], []⟩

/-! ### Queries -/

/-- The filter and pagination arguments of `search_requests`.  `limit` and
`offset` are Python ints; every call site uses non-negative values, embedded
as `Nat` (Python list slicing on non-negative bounds is `drop`/`take`). -/
structure SearchQuery where
  url_pattern : Option String := none
  method : Option String := none
  status_code : Option Int := none
  response_contains : Option String := none
  payload_contains : Option String := none
  resource_type : Option String := none
  limit : Nat := 100
  offset : Nat := 0
deriving DecidableEq, Repr

/-- One element of the `results` page returned by `search_requests`. -/
structure SearchResult where
  request_id : String
  url : String
  method : String
  status : Option Int
  resource_type : Option String
deriving DecidableEq, Repr

/-- The return value of `search_requests`. -/
structure SearchOutput where
  results : List SearchResult
  total : Nat
  limit : Nat
  offset : Nat
  has_more : Bool
deriving DecidableEq, Repr

/-- The filter chain of `search_requests` on one record: `true` when none of
the `continue` branches fires.  Each branch mirrors its Python condition,
including argument truthiness (`None`/`""`/`0` falsy) and the skip of the
body-content test when there is no response or no body. -/
def searchKeep (q : SearchQuery) (req : NetworkRequest) (resp : Option NetworkResponse) : Bool :=
  if strTruthy q.url_pattern && !substrCI (q.url_pattern.getD "") req.url then false
  else if strTruthy q.method && (pyUpper (q.method.getD "") ≠ pyUpper req.method) then false
  else if strTruthy q.resource_type &&
      (!rtTruthy req.resource_type ||
        !substrCI (q.resource_type.getD "") (req.resource_type.getD "")) then false
  else if intTruthy q.status_code &&
      (resp.isNone || (resp.map (·.status) ≠ q.status_code)) then false
  else if strTruthy q.payload_contains &&
      (!strTruthy req.post_data ||
        !substrCI (q.payload_contains.getD "") (req.post_data.getD "")) then false
  else if strTruthy q.response_contains && resp.isSome &&
      !((resp.bind (·.body)).getD []).isEmpty then
    substrCI (q.response_contains.getD "")
      (String.mk (decodeUtf8Ignore ((resp.bind (·.body)).getD [])))
  else true

/-- The pre-pagination `matches` list of `search_requests`: a linear scan of
the instance's ordered id list, skipping ids without a stored request
record, keeping records that pass the filter chain. -/
def searchMatches (st : InterceptorState) (instance_id : String) (q : SearchQuery) :
    List SearchResult :=
  ((st.instance_requests instance_id).getD []).filterMap (fun req_id =>
    match st.requests req_id with
    | none => none
    | some req =>
        let resp := st.responses req_id
        if searchKeep q req resp then
          some { request_id := req_id
                 url := req.url
                 method := req.method
                 status := resp.map (·.status)
                 resource_type := req.resource_type }
        else none)

/-- `search_requests`: filter, then paginate with `matches[offset:offset+limit]`,
reporting `total` matches and `has_more = offset + limit < total`. -/
def search_requests (st : InterceptorState) (instance_id : String) (q : SearchQuery) :
    SearchOutput :=
  let found := searchMatches st instance_id q
  { results := (found.drop q.offset).take q.limit
    total := found.length
    limit := q.limit
    offset := q.offset
    has_more := q.offset + q.limit < found.length }

/-- `list_requests`: all stored requests of the instance in id-list order,
optionally filtered by case-insensitive substring match on a truthy
resource type. -/
def list_requests (st : InterceptorState) (instance_id : String)
    (filter_type : Option String) : List NetworkRequest :=
  ((st.instance_requests instance_id).getD []).filterMap (fun req_id =>
    match st.requests req_id with
    | none => none
    | some req =>
        if strTruthy filter_type then
          if rtTruthy req.resource_type &&
              substrCI (filter_type.getD "") (req.resource_type.getD "") then
            some req
          else none
        else some req)

/-- `get_request`: global lookup, independent of instance. -/
def get_request (st : InterceptorState) (request_id : String) : Option NetworkRequest :=
  st.requests request_id

/-- `get_response`: global lookup, independent of instance. -/
def get_response (st : InterceptorState) (request_id : String) : Option NetworkResponse :=
  st.responses request_id

/-! ### JSON export / import

`json.dumps` / `json.loads` of the exported dictionary round-trips exactly,
so the file contents are embedded as the structured data itself. -/

/-- One element of the exported `requests` array. -/
structure ExportedRequest where
  request_id : String
  url : String
  method : String
  headers : List (String × String)
  cookies : List (String × String)
  post_data : Option String
  resource_type : Option String
  timestamp : Nat
deriving DecidableEq, Repr

/-- One element of the exported `responses` array; `body` is the base64
string, or `null` when the stored body was `None` — or empty, since Python
`resp.body if resp.body else None` treats `b""` as falsy. -/
structure ExportedResponse where
  request_id : String
  status : Int
  headers : List (String × String)
  content_type : Option String
  body : Option String
  timestamp : Nat
deriving DecidableEq, Repr

/-- The exported file contents `{"requests": [...], "responses": [...]}`. -/
structure ExportData where
  requests : List ExportedRequest
  responses : List ExportedResponse
deriving DecidableEq, Repr

/-- The request dictionary written by `export_to_json`. -/
def exportRequest (req : NetworkRequest) : ExportedRequest :=
  { request_id := req.request_id
    url := req.url
    method := req.method
    headers := req.headers
    cookies := req.cookies
    post_data := req.post_data
    resource_type := req.resource_type
    timestamp := req.timestamp }

/-- The response dictionary written by `export_to_json`:
`base64.b64encode(resp.body) if resp.body else None`. -/
def exportResponse (resp : NetworkResponse) : ExportedResponse :=
  { request_id := resp.request_id
    status := resp.status
    headers := resp.headers
    content_type := resp.content_type
    body := match resp.body with
            | some b => if b.isEmpty then none else some (b64encodeString b)
            | none => none
    timestamp := resp.timestamp }

/-- `export_to_json`: walk the instance's ordered id list; for each id with a
stored request append its dictionary, and for each id with a stored response
append its dictionary. -/
def export_to_json (st : InterceptorState) (instance_id : String) : ExportData :=
  let ids := (st.instance_requests instance_id).getD []
  { requests := ids.filterMap (fun req_id => (st.requests req_id).map exportRequest)
    responses := ids.filterMap (fun req_id => (st.responses req_id).map exportResponse) }

/-- The request record `import_from_json` builds: note `instance_id` is the
*importing* instance's id, not the exporting one's. -/
def importRequestRecord (instance_id : String) (rd : ExportedRequest) : NetworkRequest :=
  { request_id := rd.request_id
    instance_id := instance_id
    url := rd.url
    method := rd.method
    headers := rd.headers
    cookies := rd.cookies
    post_data := rd.post_data
    resource_type := rd.resource_type
    timestamp := rd.timestamp }

/-- The response record `import_from_json` builds:
`base64.b64decode(body) if resp_data.get("body") else None` (a missing,
`null` or empty string body yields `None`). -/
def importResponseRecord (rd : ExportedResponse) : NetworkResponse :=
  { request_id := rd.request_id
    status := rd.status
    headers := rd.headers
    content_type := rd.content_type
    body := match rd.body with
            | some s => if s = "" then none else some (b64decodeString s)
            | none => none
    timestamp := rd.timestamp }

/-- One step of the import loop over `data["requests"]`: store the record
(overwriting any existing one), then append its id to the importing
instance's ordered id list unless already present. -/
def importRequestStep (instance_id : String) (s : InterceptorState) (rd : ExportedRequest) :
    InterceptorState :=
  let s' := { s with requests := fupd s.requests rd.request_id (importRequestRecord instance_id rd) }
  let cur := (s'.instance_requests instance_id).getD []
  if cur.contains rd.request_id then s'
  else { s' with instance_requests := fupd s'.instance_requests instance_id (cur ++ [rd.request_id]) }

/-- One step of the import loop over `data["responses"]`: store the record,
overwriting any existing one. -/
def importResponseStep (s : InterceptorState) (rd : ExportedResponse) : InterceptorState :=
  { s with responses := fupd s.responses rd.request_id (importResponseRecord rd) }

/-- `import_from_json`: initialize the importing instance's id list when
absent, then merge all request records, then all response records. -/
def import_from_json (st : InterceptorState) (instance_id : String) (data : ExportData) :
    InterceptorState :=
  let st0 := match st.instance_requests instance_id with
             | some _ => st
             | none => { st with instance_requests := fupd st.instance_requests instance_id [] }
  let st1 := data.requests.foldl (importRequestStep instance_id) st0
  data.responses.foldl importResponseStep st1

/-- Store coherence: every stored record is keyed by its own `request_id`.
Every state the interceptor actually builds satisfies this — the handlers
and the import loop always store a record under its `request_id` field. -/
def Coherent (st : InterceptorState) : Prop :=
  (∀ k r, st.requests k = some r → r.request_id = k) ∧
  (∀ k p, st.responses k = some p → p.request_id = k)

/-! ### Browser instance manager (`src/browser_manager.py`)

The teardown stages of `close_instance` (tab close, connection detach,
protocol close, process-tracker kill, `browser.stop()`, the
terminate→kill→signal escalation) act on the external browser process only
and are each individually fault-tolerant; their state effect on the
registry is nil, so the embedding keeps only the registry and mirror
transitions they bracket. -/

/-- Spawn options (`models.BrowserOptions`).
Modelled from the spec: `models.py` is not under `src/`; fields per §3/§6 and
the uses in `spawn_browser`. -/
structure BrowserOptions where
  headless : Bool := true
  user_agent : Option String := none
  viewport_width : Nat := 1920
  viewport_height : Nat := 1080
  user_data_dir : Option String := none
  sandbox : Bool := false
  extra_headers : Option (List (String × String)) := none
deriving DecidableEq, Repr

/-- A browser instance record (`models.BrowserInstance`).
Modelled from the spec: §3 lists the fields; `update_activity` refreshes
`last_activity`. -/
structure BrowserInstance where
  instance_id : String
  state : BrowserState := .initializing
  headless : Bool := true
  user_agent : Option String := none
  viewport_width : Nat := 1920
  viewport_height : Nat := 1080
  created_at : Nat := 0
  last_activity : Nat := 0
  current_url : Option String := none
  title : Option String := none
deriving DecidableEq, Repr

/-- One registry entry of `BrowserManager._instances`: the dict
`{'browser': .., 'tab': .., 'instance': .., 'options': .., 'network_data': []}`.
The driver context and primary tab are external handles, embedded as opaque
numbers. -/
structure RegistryEntry where
  browser : Nat
  tab : Nat
  inst : BrowserInstance
  options : BrowserOptions
  network_data : List String := []
deriving DecidableEq, Repr

/-- The payload `spawn_browser` hands to the persistent metadata mirror. -/
structure MirrorEntry where
  state : String
  created_at : Nat
  current_url : String
  title : String
deriving DecidableEq, Repr

/-- The manager's registry plus the external metadata mirror.
Modelled from the spec: `persistent_storage.py` is not under `src/`; §6 says
its `storeInstance`/`removeInstance` failures are logged only and never
fatal, so both are embedded as total map updates. -/
structure ManagerState where
  instances : String → Option RegistryEntry
  mirror : String → Option MirrorEntry

/-- The manager's initial state (no instances, empty mirror). -/
def ManagerState.initial : ManagerState :=
  ⟨fun _ => none, fun _ => none⟩

/-- Where `spawn_browser` can fail: no usable browser binary, driver start
failure, or a post-start configuration failure (user-agent override, extra
headers, viewport resize).  Every failure point precedes the registry
insertion; the only operation after insertion is the mirror write, which
never raises (see `ManagerState`). -/
inductive SpawnFailure where
  | noBrowserFound
  | driverStartFailed
  | userAgentFailed
  | extraHeadersFailed
  | viewportFailed
deriving DecidableEq, Repr

/-- The aggregated error message `spawn_browser` raises. -/
def spawnErrorMessage : SpawnFailure → String
  | .noBrowserFound =>
      "Failed to spawn browser: No compatible browser found (Chrome, Chromium, or Microsoft Edge)"
  | .driverStartFailed => "Failed to spawn browser: driver start failed"
  | .userAgentFailed => "Failed to spawn browser: user agent override failed"
  | .extraHeadersFailed => "Failed to spawn browser: extra headers failed"
  | .viewportFailed => "Failed to spawn browser: viewport resize failed"

/-- The result of `spawn_browser`: the manager state, the returned instance
or raised message, and the final value of the locally created
`BrowserInstance` object (which the except-clause marks ERROR in place). -/
structure SpawnResult where
  state : ManagerState
  outcome : Except String BrowserInstance
  inst : BrowserInstance

/-- `spawn_browser`: create the instance record; on any failure mark it
ERROR and raise without touching the registry.  On success insert the
registry entry, mark the instance READY (the registry entry references the
same object, so it carries the final state), refresh activity, and write
the metadata mirror. -/
def spawn_browser (st : ManagerState) (instance_id : String) (options : BrowserOptions)
    (failure : Option SpawnFailure) (now : Nat) : SpawnResult :=
  let inst0 : BrowserInstance :=
    { instance_id := instance_id
      state := .initializing
      headless := options.headless
      user_agent := options.user_agent
      viewport_width := options.viewport_width
      viewport_height := options.viewport_height
      created_at := now }
  match failure with
  | some f =>
      { state := st
        outcome := .error (spawnErrorMessage f)
        inst := { inst0 with state := .error } }
  | none =>
      let inst : BrowserInstance := { inst0 with state := .ready, last_activity := now }
      let entry : RegistryEntry :=
        { browser := 0, tab := 0, inst := inst, options := options }
      let mirror : MirrorEntry :=
        { state := "ready", created_at := now, current_url := "", title := "Browser Instance" }
      { state :=
          { instances := fupd st.instances instance_id entry
            mirror := fupd st.mirror instance_id mirror }
        outcome := .ok inst
        inst := inst }

/-- `get_instance`: registry lookup under the lock. -/
def get_instance (st : ManagerState) (instance_id : String) : Option RegistryEntry :=
  st.instances instance_id

/-- Whether the 5-second bounded-time guard around `_do_close` expired. -/
inductive CloseOutcome where
  | completed
  | timedOut
deriving DecidableEq, Repr

/-- The result of `close_instance`: the manager state, the returned boolean
(the function returns a `Bool` on every path, never an exception), and the
final value of the closed instance object when one was found. -/
structure CloseResult where
  state : ManagerState
  returned : Bool
  closedInstance : Option BrowserInstance

/-- `_do_close`, the inner teardown of `close_instance`: absent id returns
`False`; otherwise run the fault-tolerant external teardown stages, mark
the instance CLOSED, delete the registry entry and the mirror entry, and
return `True`. -/
def close_instance_inner (st : ManagerState) (instance_id : String) : CloseResult :=
  match st.instances instance_id with
  | none => { state := st, returned := false, closedInstance := none }
  | some entry =>
      { state :=
          { instances := fdel st.instances instance_id
            mirror := fdel st.mirror instance_id }
        returned := true
        closedInstance := some { entry.inst with state := .closed } }

/-- The timeout branch of `close_instance`: on guard expiry, force-mark the
instance CLOSED, delete the registry and mirror entries if still present,
and report success. -/
def close_instance_timeout (st : ManagerState) (instance_id : String) : CloseResult :=
  match st.instances instance_id with
  | none => { state := st, returned := true, closedInstance := none }
  | some entry =>
      { state :=
          { instances := fdel st.instances instance_id
            mirror := fdel st.mirror instance_id }
        returned := true
        closedInstance := some { entry.inst with state := .closed } }

/-- `close_instance`: the inner teardown under `asyncio.wait_for(..., 5.0)`,
with the forced cleanup on timeout. -/
def close_instance (st : ManagerState) (instance_id : String) (outcome : CloseOutcome) :
    CloseResult :=
  match outcome with
  | .completed => close_instance_inner st instance_id
  | .timedOut => close_instance_timeout st instance_id

/-! ## Claims about the lifecycle manager -/

/-- C1: when the inner teardown of `close_instance` exceeds the 5-second
bounded-time guard, the manager force-marks the still-registered instance
CLOSED, deletes its registry entry and its external metadata mirror entry,
and `close_instance` returns `True` — a boolean, never an exception (the
timeout branch converts the internal `TimeoutError` into forced success). -/
theorem close_timeout_forces_cleanup (st : ManagerState) (instance_id : String)
    (entry : RegistryEntry) (h : st.instances instance_id = some entry) :
    let r := close_instance st instance_id .timedOut
    r.returned = true ∧
    r.state.instances instance_id = none ∧
    r.state.mirror instance_id = none ∧
    r.closedInstance = some { entry.inst with state := .closed } := by
  simp [close_instance, close_instance_timeout, h]

/-- The registry entry a default spawn at time 7 creates for id `"b1"`. -/
def sampleEntry : RegistryEntry :=
  { browser := 0
    tab := 0
    inst := { instance_id := "b1", state := .ready, created_at := 7, last_activity := 7 }
    options := {} }

/-- The manager state holding exactly the instance of `sampleEntry`. -/
def sampleManagerState : ManagerState :=
  (spawn_browser ManagerState.initial "b1" {} none 7).state

theorem close_timeout_forces_cleanup_witness :
    sampleManagerState.instances "b1" = some sampleEntry ∧
    ((close_instance sampleManagerState "b1" .timedOut).returned = true ∧
     (close_instance sampleManagerState "b1" .timedOut).state.instances "b1" = none ∧
     (close_instance sampleManagerState "b1" .timedOut).state.mirror "b1" = none ∧
     (close_instance sampleManagerState "b1" .timedOut).closedInstance =
       some { sampleEntry.inst with state := .closed }) :=
  ⟨by decide, close_timeout_forces_cleanup sampleManagerState "b1" sampleEntry (by decide)⟩

/-- C2: after a successful spawn of an id followed by `close_instance` on it
— whether the inner teardown completed or the bounded-time guard expired —
the registry holds no entry for the id and `get_instance` returns none. -/
theorem spawn_close_removes_registry_entry (st : ManagerState) (instance_id : String)
    (options : BrowserOptions) (now : Nat) (outcome : CloseOutcome) :
    let st1 := (spawn_browser st instance_id options none now).state
    let r := close_instance st1 instance_id outcome
    r.state.instances instance_id = none ∧ get_instance r.state instance_id = none := by
  cases outcome <;>
    simp [spawn_browser, close_instance, close_instance_inner, close_instance_timeout,
      get_instance]

/-- C3: every spawn failure — no usable browser binary, driver start
failure, or post-start configuration failure — marks the instance ERROR and
raises the aggregated launch error, and the registry holds no entry for the
new id: the failure points all precede registration, so no partial state is
ever inserted. -/
theorem spawn_failure_leaves_no_partial_state (st : ManagerState) (instance_id : String)
    (options : BrowserOptions) (f : SpawnFailure) (now : Nat)
    (hfresh : st.instances instance_id = none) :
    let r := spawn_browser st instance_id options (some f) now
    r.inst.state = .error ∧
    r.outcome = .error (spawnErrorMessage f) ∧
    r.state.instances instance_id = none := by
  simp [spawn_browser, hfresh]

theorem spawn_failure_leaves_no_partial_state_witness :
    ManagerState.initial.instances "b2" = none ∧
    ((spawn_browser ManagerState.initial "b2" {} (some .noBrowserFound) 3).inst.state = .error ∧
     (spawn_browser ManagerState.initial "b2" {} (some .noBrowserFound) 3).outcome =
       .error (spawnErrorMessage .noBrowserFound) ∧
     (spawn_browser ManagerState.initial "b2" {} (some .noBrowserFound) 3).state.instances "b2" =
       none) :=
  ⟨rfl, spawn_failure_leaves_no_partial_state ManagerState.initial "b2" {}
    .noBrowserFound 3 rfl⟩

/-! ## Claims about the interception engine -/

/-- 120 request ids `"r0"`…`"r119"`. -/
def c4Ids : List String := (List.range 120).map (fun n => "r" ++ toString n)

/-- A GET request whose URL contains `"api"`. -/
def c4Request (req_id : String) : NetworkRequest :=
  { request_id := req_id
    instance_id := "i1"
    url := "https://example.com/api/data"
    method := "GET"
    headers := []
    cookies := []
    post_data := none
    resource_type := some "xhr"
    timestamp := 0 }

/-- An interceptor state in which instance `"i1"` holds 120 stored requests,
all matching `url_pattern="api"`. -/
def c4State : InterceptorState :=
  { requests := fun k => if c4Ids.contains k then some (c4Request k) else none
    responses := fun _ => none
    instance_requests := fun k => if k = "i1" then some c4Ids else none
    instance_filters := fun _ => none }

/-- The query `url_pattern="api", offset=100, limit=50`. -/
def c4Query : SearchQuery := { url_pattern := some "api", limit := 50, offset := 100 }

set_option maxRecDepth 100000

/-- C4: `search_requests` returns at most `limit` results and
`has_more = (offset + limit < total)` where `total` counts the records
matching the filters; concretely, with 120 requests matching
`url_pattern="api"`, `offset=100, limit=50` returns 20 results with
`has_more = false`. -/
theorem search_requests_pagination :
    (∀ (st : InterceptorState) (instance_id : String) (q : SearchQuery),
      (search_requests st instance_id q).results.length ≤ q.limit ∧
      (search_requests st instance_id q).total = (searchMatches st instance_id q).length ∧
      (search_requests st instance_id q).has_more =
        decide (q.offset + q.limit < (searchMatches st instance_id q).length)) ∧
    ((search_requests c4State "i1" c4Query).total = 120 ∧
     (search_requests c4State "i1" c4Query).results.length = 20 ∧
     (search_requests c4State "i1" c4Query).has_more = false) := by
  constructor
  · intro st instance_id q
    refine ⟨?_, rfl, rfl⟩
    simp [search_requests, List.length_take]
  · refine ⟨by decide, by decide, by decide⟩

/-- Every record returned by `list_requests` is stored in the global request
store under some key. -/
theorem mem_list_requests_stored (st : InterceptorState) (instance_id : String)
    (ft : Option String) (r : NetworkRequest) (h : r ∈ list_requests st instance_id ft) :
    ∃ k, st.requests k = some r := by
  unfold list_requests at h
  rw [List.mem_filterMap] at h
  obtain ⟨k, _, hk⟩ := h
  refine ⟨k, ?_⟩
  cases hreq : st.requests k with
  | none => rw [hreq] at hk; simp at hk
  | some req =>
      rw [hreq] at hk
      simp at hk
      split_ifs at hk <;> simp_all

/-- Every entry of the pre-pagination match list of `search_requests` has a
stored request record under its own `request_id`. -/
theorem mem_searchMatches_stored (st : InterceptorState) (instance_id : String)
    (q : SearchQuery) (m : SearchResult) (h : m ∈ searchMatches st instance_id q) :
    ∃ req, st.requests m.request_id = some req := by
  unfold searchMatches at h
  rw [List.mem_filterMap] at h
  obtain ⟨k, _, hk⟩ := h
  cases hreq : st.requests k with
  | none => rw [hreq] at hk; simp at hk
  | some req =>
      rw [hreq] at hk
      simp at hk
      obtain ⟨-, hm⟩ := hk
      rw [← hm]
      exact ⟨req, hreq⟩

/-- A fresh interceptor attached to instance `"i1"`. -/
def c6Base : InterceptorState := setup_interception InterceptorState.initial "i1"

/-- `c6Base` after `set_capture_filters("i1", include=["XHR"])`. -/
def c6Filtered : InterceptorState := set_capture_filters c6Base "i1" (some ["XHR"]) none

/-- A request event that carries no resource type (CDP `RequestWillBeSent`
events may omit `type`) — in particular its resource type is not XHR. -/
def c6Event : RequestEvent :=
  { request_id := "q1"
    url := "https://example.com/page"
    method := "GET"
    headers := []
    post_data := none
    resource_type := none
    timestamp := 0 }

/-- C6 counterexample: after `set_capture_filters(include=["XHR"])`, a
request event with no resource type — which is not XHR — is nevertheless
captured and appears in `list_requests`: the include test requires a truthy
resource type before it can drop anything. -/
theorem include_filter_misses_untyped_request :
    (list_requests (on_request c6Filtered "i1" c6Event) "i1" none).map
      (fun r => r.request_id) = ["q1"] := by decide

/-- C6 amended: after `set_capture_filters(include=["XHR"])`, every
subsequently observed request event with a present, non-empty resource type
other than XHR (case-insensitive) is dropped by the capture path — the
state is unchanged — and, provided the store holds no request under the
event's id, no record with that id ever appears in `list_requests` output;
an event without a (truthy) resource type is still captured. -/
theorem include_filter_drops_typed_nonmember (st : InterceptorState) (instance_id : String)
    (ev : RequestEvent) (t : String) (excl : Option (List String))
    (hrt : ev.resource_type = some t) (hne : t ≠ "") (hx : pyLower t ≠ "xhr")
    (hco : ∀ k r, st.requests k = some r → r.request_id = k)
    (habs : st.requests ev.request_id = none) :
    let stf := set_capture_filters st instance_id (some ["XHR"]) excl
    on_request stf instance_id ev = stf ∧
    (∀ iid' ft, ∀ r ∈ list_requests (on_request stf instance_id ev) iid' ft,
      r.request_id ≠ ev.request_id) := by
  intro stf
  have hxhr : pyLower "XHR" = "xhr" := by decide
  have hdrop : on_request stf instance_id ev = stf := by
    unfold on_request
    simp [stf, set_capture_filters, fupd_self, hrt, rtTruthy, hne, hxhr, hx]
  refine ⟨hdrop, ?_⟩
  intro iid' ft r hr heq
  rw [hdrop] at hr
  obtain ⟨k, hk⟩ := mem_list_requests_stored stf iid' ft r hr
  have hck : r.request_id = k := hco k r hk
  rw [heq] at hck
  rw [← hck] at hk
  have hsr : stf.requests = st.requests := rfl
  rw [hsr, habs] at hk
  exact Option.noConfusion hk

/-- C6 amended, witness state: one stored XHR-typed request would satisfy
the remaining filters; the dropped event carries type `"Image"`. -/
def c6DropEvent : RequestEvent :=
  { request_id := "q2"
    url := "https://example.com/pic.png"
    method := "GET"
    headers := []
    post_data := none
    resource_type := some "Image"
    timestamp := 0 }

theorem include_filter_drops_typed_nonmember_witness :
    (c6DropEvent.resource_type = some "Image" ∧ "Image" ≠ "" ∧ pyLower "Image" ≠ "xhr" ∧
     (∀ k r, c6Base.requests k = some r → r.request_id = k) ∧
     c6Base.requests c6DropEvent.request_id = none) ∧
    (on_request (set_capture_filters c6Base "i1" (some ["XHR"]) none) "i1" c6DropEvent =
        set_capture_filters c6Base "i1" (some ["XHR"]) none ∧
     (∀ iid' ft, ∀ r ∈ list_requests
        (on_request (set_capture_filters c6Base "i1" (some ["XHR"]) none) "i1" c6DropEvent)
        iid' ft, r.request_id ≠ c6DropEvent.request_id)) :=
  ⟨⟨rfl, by decide, by decide, fun k r hk => by simp [c6Base, setup_interception,
      InterceptorState.initial] at hk, by decide⟩,
   include_filter_drops_typed_nonmember c6Base "i1" c6DropEvent "Image" none rfl
     (by decide) (by decide)
     (fun k r hk => by simp [c6Base, setup_interception, InterceptorState.initial] at hk)
     (by decide)⟩

/-- With no filter configured for the instance and its id list initialized,
`_on_request` stores the record and appends the id. -/
theorem on_request_unfiltered (st : InterceptorState) (instance_id : String)
    (ev : RequestEvent) (l : List String)
    (hinit : st.instance_requests instance_id = some l)
    (hnof : st.instance_filters instance_id = none) :
    on_request st instance_id ev =
      { st with
        requests := fupd st.requests ev.request_id (requestRecordOf instance_id ev)
        instance_requests := fupd st.instance_requests instance_id (l ++ [ev.request_id]) } := by
  unfold on_request
  simp [hnof, hinit]

/-- Folding unfiltered request events over the handler: the ordered id list
grows by the events' ids in arrival order, and a request record is stored
for a key iff it was stored before or one of the events carries it. -/
theorem on_request_fold_unfiltered : ∀ (evs : List RequestEvent) (st : InterceptorState)
    (instance_id : String) (l : List String),
    st.instance_requests instance_id = some l →
    st.instance_filters instance_id = none →
    ((evs.foldl (fun s e => on_request s instance_id e) st).instance_requests instance_id =
        some (l ++ evs.map (fun e => e.request_id)) ∧
     ∀ k, ((evs.foldl (fun s e => on_request s instance_id e) st).requests k).isSome =
        ((st.requests k).isSome || (evs.map (fun e => e.request_id)).contains k))
  | [], st, instance_id, l, hinit, _ => by simp [hinit]
  | ev :: evs, st, instance_id, l, hinit, hnof => by
      rw [List.foldl_cons, on_request_unfiltered st instance_id ev l hinit hnof]
      obtain ⟨ha, hb⟩ := on_request_fold_unfiltered evs
        { st with
          requests := fupd st.requests ev.request_id (requestRecordOf instance_id ev)
          instance_requests := fupd st.instance_requests instance_id (l ++ [ev.request_id]) }
        instance_id (l ++ [ev.request_id]) (by simp [fupd_self]) hnof
      constructor
      · rw [ha]
        simp
      · intro k
        rw [hb k]
        by_cases hk : k = ev.request_id <;>
          simp [fupd, hk, Bool.or_assoc, Bool.or_comm, Bool.or_left_comm]

/-- A captured document request with id `"d1"`. -/
def c7Event : RequestEvent :=
  { request_id := "d1"
    url := "https://a/1"
    method := "GET"
    headers := []
    post_data := none
    resource_type := some "Document"
    timestamp := 0 }

/-- C7 counterexample: two captured request events carrying the same request
id (as CDP emits for redirects) make the id appear twice in the instance's
ordered id list — `_on_request` appends unconditionally. -/
theorem duplicate_request_id_listed_twice :
    ((([c7Event, c7Event].foldl (fun s e => on_request s "i1" e)
        (setup_interception InterceptorState.initial "i1")).instance_requests "i1").getD
      []).count "d1" = 2 := by decide

/-- C7 amended: for every sequence of captured request events with pairwise
distinct request ids on an unfiltered instance whose ordered id list starts
empty, the list afterwards holds exactly the events' ids in first-observed
order, each id appears exactly once, and every id in the list has a record
in the global request store. -/
theorem captured_ids_unique_ordered_stored (st : InterceptorState) (instance_id : String)
    (evs : List RequestEvent)
    (hinit : st.instance_requests instance_id = some [])
    (hnof : st.instance_filters instance_id = none)
    (hnd : (evs.map (fun e => e.request_id)).Nodup) :
    let st' := evs.foldl (fun s e => on_request s instance_id e) st
    st'.instance_requests instance_id = some (evs.map (fun e => e.request_id)) ∧
    (∀ rid ∈ (st'.instance_requests instance_id).getD [],
      ((st'.instance_requests instance_id).getD []).count rid = 1) ∧
    (∀ rid ∈ (st'.instance_requests instance_id).getD [], (st'.requests rid).isSome) := by
  intro st'
  obtain ⟨ha, hb⟩ := on_request_fold_unfiltered evs st instance_id [] hinit hnof
  rw [List.nil_append] at ha
  refine ⟨ha, ?_, ?_⟩
  · intro rid hmem
    rw [ha] at hmem ⊢
    simp only [Option.getD_some] at hmem ⊢
    exact List.count_eq_one_of_mem hnd hmem
  · intro rid hmem
    rw [ha] at hmem
    simp only [Option.getD_some] at hmem
    rw [hb rid]
    simp [hmem]

/-- A captured stylesheet request with id `"d2"`. -/
def c7Event2 : RequestEvent :=
  { request_id := "d2"
    url := "https://a/2"
    method := "GET"
    headers := []
    post_data := none
    resource_type := some "Stylesheet"
    timestamp := 1 }

theorem captured_ids_unique_ordered_stored_witness :
    ((setup_interception InterceptorState.initial "i1").instance_requests "i1" = some [] ∧
     (setup_interception InterceptorState.initial "i1").instance_filters "i1" = none ∧
     ([c7Event, c7Event2].map (fun e => e.request_id)).Nodup) ∧
    (let st' := [c7Event, c7Event2].foldl (fun s e => on_request s "i1" e)
        (setup_interception InterceptorState.initial "i1")
     st'.instance_requests "i1" = some (["d1", "d2"]) ∧
     (∀ rid ∈ (st'.instance_requests "i1").getD [],
       ((st'.instance_requests "i1").getD []).count rid = 1) ∧
     (∀ rid ∈ (st'.instance_requests "i1").getD [], (st'.requests rid).isSome)) :=
  ⟨⟨rfl, rfl, by decide⟩,
   captured_ids_unique_ordered_stored (setup_interception InterceptorState.initial "i1")
     "i1" [c7Event, c7Event2] rfl rfl (by decide)⟩

/-- C8: a response event whose request id was never stored as a request
(e.g. the request was dropped by the capture filter) is stored — the
response path applies no filter — and retrievable by `get_response`, yet in
a coherent store its id never appears in `list_requests` or
`search_requests` output for any instance. -/
theorem orphan_response_stored_but_invisible (st : InterceptorState) (instance_id : String)
    (ev : ResponseEvent)
    (hco : ∀ k r, st.requests k = some r → r.request_id = k)
    (habs : st.requests ev.request_id = none) :
    let st' := on_response st instance_id ev
    get_response st' ev.request_id = some (responseRecordOf ev) ∧
    (∀ iid' ft, ∀ r ∈ list_requests st' iid' ft, r.request_id ≠ ev.request_id) ∧
    (∀ iid' q, ∀ m ∈ (search_requests st' iid' q).results, m.request_id ≠ ev.request_id) := by
  intro st'
  have hreq_eq : st'.requests = st.requests := rfl
  refine ⟨?_, ?_, ?_⟩
  · simp [st', get_response, on_response, fupd_self]
  · intro iid' ft r hr heq
    obtain ⟨k, hk⟩ := mem_list_requests_stored st' iid' ft r hr
    rw [hreq_eq] at hk
    have hck : r.request_id = k := hco k r hk
    rw [heq] at hck
    rw [← hck, habs] at hk
    exact Option.noConfusion hk
  · intro iid' q m hm heq
    simp only [search_requests] at hm
    have hm' : m ∈ searchMatches st' iid' q :=
      List.drop_subset q.offset (searchMatches st' iid' q)
        (List.take_subset q.limit ((searchMatches st' iid' q).drop q.offset) hm)
    obtain ⟨req, hk⟩ := mem_searchMatches_stored st' iid' q m hm'
    rw [hreq_eq, heq, habs] at hk
    exact Option.noConfusion hk

/-- An orphan response event: its request id was never captured. -/
def c8Event : ResponseEvent :=
  { request_id := "z1"
    status := 404
    headers := []
    mime_type := some "text/html"
    fetched_body := none
    timestamp := 5 }

theorem orphan_response_stored_but_invisible_witness :
    ((∀ k r, InterceptorState.initial.requests k = some r → r.request_id = k) ∧
     InterceptorState.initial.requests c8Event.request_id = none) ∧
    (let st' := on_response InterceptorState.initial "i1" c8Event
     get_response st' c8Event.request_id = some (responseRecordOf c8Event) ∧
     (∀ iid' ft, ∀ r ∈ list_requests st' iid' ft, r.request_id ≠ c8Event.request_id) ∧
     (∀ iid' q, ∀ m ∈ (search_requests st' iid' q).results,
        m.request_id ≠ c8Event.request_id)) :=
  ⟨⟨fun k r hk => by simp [InterceptorState.initial] at hk, rfl⟩,
   orphan_response_stored_but_invisible InterceptorState.initial "i1" c8Event
     (fun k r hk => by simp [InterceptorState.initial] at hk) rfl⟩

/-! ### The merge semantics of `import_from_json` -/

theorem importRequestStep_requests (instance_id : String) (s : InterceptorState)
    (rd : ExportedRequest) :
    (importRequestStep instance_id s rd).requests =
      fupd s.requests rd.request_id (importRequestRecord instance_id rd) := by
  by_cases hc : rd.request_id ∈ ((s.instance_requests instance_id).getD []) <;>
    simp [importRequestStep, hc]

theorem importRequestStep_responses (instance_id : String) (s : InterceptorState)
    (rd : ExportedRequest) :
    (importRequestStep instance_id s rd).responses = s.responses := by
  by_cases hc : rd.request_id ∈ ((s.instance_requests instance_id).getD []) <;>
    simp [importRequestStep, hc]

theorem importRequestStep_list (instance_id : String) (s : InterceptorState)
    (rd : ExportedRequest) (l : List String) (h : s.instance_requests instance_id = some l) :
    (importRequestStep instance_id s rd).instance_requests instance_id =
      some (if rd.request_id ∈ l then l else l ++ [rd.request_id]) := by
  by_cases hc : rd.request_id ∈ l <;> simp [importRequestStep, h, hc]

/-- The request-merging fold: the final record under a key is the import of
the file's last entry carrying that key, or the prior record if the file
has none. -/
theorem importRequests_fold_requests (instance_id : String) :
    ∀ (rds : List ExportedRequest) (s : InterceptorState) (rid : String),
    (rds.foldl (importRequestStep instance_id) s).requests rid =
      (match (rds.filter (fun rd => rd.request_id = rid)).getLast? with
       | some rd => some (importRequestRecord instance_id rd)
       | none => s.requests rid)
  | [], s, rid => by simp
  | rd :: rds, s, rid => by
      rw [List.foldl_cons, importRequests_fold_requests instance_id rds _ rid]
      by_cases h : rd.request_id = rid
      · rw [List.filter_cons_of_pos (by simp [h])]
        cases hl : rds.filter (fun rd => rd.request_id = rid) with
        | nil =>
            simp [hl, importRequestStep_requests, fupd, h]
        | cons x xs =>
            rw [List.getLast?_cons_cons]
            cases hgl : (x :: xs).getLast? with
            | none => exact absurd (List.getLast?_eq_none_iff.mp hgl) (by simp)
            | some y => simp
      · rw [List.filter_cons_of_neg (by simp [h])]
        have h' : ¬ rid = rd.request_id := fun he => h he.symm
        cases hl : rds.filter (fun rd => rd.request_id = rid) with
        | nil =>
            simp [hl, importRequestStep_requests, fupd, h']
        | cons x xs =>
            cases hgl : (x :: xs).getLast? with
            | none => exact absurd (List.getLast?_eq_none_iff.mp hgl) (by simp)
            | some y => simp

/-- The request-merging fold never touches the response store. -/
theorem importRequests_fold_responses (instance_id : String) :
    ∀ (rds : List ExportedRequest) (s : InterceptorState),
    (rds.foldl (importRequestStep instance_id) s).responses = s.responses
  | [], _ => rfl
  | rd :: rds, s => by
      rw [List.foldl_cons, importRequests_fold_responses instance_id rds _,
        importRequestStep_responses]

/-- The request-merging fold only appends to the instance's ordered id list,
and never appends an id the list already holds. -/
theorem importRequests_fold_list (instance_id : String) :
    ∀ (rds : List ExportedRequest) (s : InterceptorState) (l : List String),
    s.instance_requests instance_id = some l →
    ∃ ext, (rds.foldl (importRequestStep instance_id) s).instance_requests instance_id =
        some (l ++ ext) ∧ ∀ r ∈ l, r ∉ ext
  | [], s, l, h => ⟨[], by simp [h], by simp⟩
  | rd :: rds, s, l, h => by
      rw [List.foldl_cons]
      by_cases hc : rd.request_id ∈ l
      · obtain ⟨ext, hext, hfresh⟩ := importRequests_fold_list instance_id rds
          (importRequestStep instance_id s rd) l
          (by rw [importRequestStep_list instance_id s rd l h, if_pos hc])
        exact ⟨ext, hext, hfresh⟩
      · obtain ⟨ext, hext, hfresh⟩ := importRequests_fold_list instance_id rds
          (importRequestStep instance_id s rd) (l ++ [rd.request_id])
          (by rw [importRequestStep_list instance_id s rd l h, if_neg hc])
        refine ⟨rd.request_id :: ext, by simpa using hext, ?_⟩
        intro r hr
        simp only [List.mem_cons, not_or]
        constructor
        · intro hcontra
          rw [hcontra] at hr
          exact hc hr
        · exact hfresh r (List.mem_append_left _ hr)

/-- An id carried by some file entry ends up in the instance's ordered id
list after the request-merging fold. -/
theorem importRequests_fold_mem (instance_id : String) :
    ∀ (rds : List ExportedRequest) (s : InterceptorState) (l : List String) (rid : String),
    s.instance_requests instance_id = some l →
    (rid ∈ l ∨ ∃ rd ∈ rds, rd.request_id = rid) →
    ∃ l', (rds.foldl (importRequestStep instance_id) s).instance_requests instance_id =
        some l' ∧ rid ∈ l'
  | rds, s, l, rid, h, .inl hmem => by
      obtain ⟨ext, hext, -⟩ := importRequests_fold_list instance_id rds s l h
      exact ⟨l ++ ext, hext, List.mem_append_left _ hmem⟩
  | [], s, l, rid, h, .inr hex => by
      obtain ⟨rd, hrd, -⟩ := hex
      exact absurd hrd (List.not_mem_nil rd)
  | rd :: rds, s, l, rid, h, .inr hex => by
      rw [List.foldl_cons]
      have hstep := importRequestStep_list instance_id s rd l h
      obtain ⟨rd', hrd', hid⟩ := hex
      rcases List.mem_cons.mp hrd' with heq | htail
      · subst heq
        by_cases hc : rd'.request_id ∈ l
        · refine importRequests_fold_mem instance_id rds _ l rid ?_ (.inl ?_)
          · rw [hstep, if_pos hc]
          · rw [← hid]
            exact hc
        · refine importRequests_fold_mem instance_id rds _ (l ++ [rd'.request_id]) rid ?_
            (.inl ?_)
          · rw [hstep, if_neg hc]
          · rw [← hid]
            exact List.mem_append_right _ (List.mem_singleton.mpr rfl)
      · by_cases hc : rd.request_id ∈ l
        · exact importRequests_fold_mem instance_id rds _ l rid
            (by rw [hstep, if_pos hc]) (.inr ⟨rd', htail, hid⟩)
        · exact importRequests_fold_mem instance_id rds _ (l ++ [rd.request_id]) rid
            (by rw [hstep, if_neg hc]) (.inr ⟨rd', htail, hid⟩)

/-- The response-merging fold: the final record under a key is the import of
the file's last entry carrying that key, or the prior record. -/
theorem importResponses_fold_responses :
    ∀ (rds : List ExportedResponse) (s : InterceptorState) (rid : String),
    (rds.foldl importResponseStep s).responses rid =
      (match (rds.filter (fun rd => rd.request_id = rid)).getLast? with
       | some rd => some (importResponseRecord rd)
       | none => s.responses rid)
  | [], s, rid => by simp
  | rd :: rds, s, rid => by
      rw [List.foldl_cons, importResponses_fold_responses rds _ rid]
      by_cases h : rd.request_id = rid
      · rw [List.filter_cons_of_pos (by simp [h])]
        cases hl : rds.filter (fun rd => rd.request_id = rid) with
        | nil => simp [hl, importResponseStep, fupd, h]
        | cons x xs =>
            rw [List.getLast?_cons_cons]
            cases hgl : (x :: xs).getLast? with
            | none => exact absurd (List.getLast?_eq_none_iff.mp hgl) (by simp)
            | some y => simp
      · rw [List.filter_cons_of_neg (by simp [h])]
        have h' : ¬ rid = rd.request_id := fun he => h he.symm
        cases hl : rds.filter (fun rd => rd.request_id = rid) with
        | nil => simp [hl, importResponseStep, fupd, h']
        | cons x xs =>
            cases hgl : (x :: xs).getLast? with
            | none => exact absurd (List.getLast?_eq_none_iff.mp hgl) (by simp)
            | some y => simp

/-- The response-merging fold never touches the request store or the id
lists. -/
theorem importResponses_fold_others :
    ∀ (rds : List ExportedResponse) (s : InterceptorState),
    (rds.foldl importResponseStep s).requests = s.requests ∧
    (rds.foldl importResponseStep s).instance_requests = s.instance_requests
  | [], _ => ⟨rfl, rfl⟩
  | rd :: rds, s => by
      rw [List.foldl_cons]
      exact importResponses_fold_others rds _

/-- A stored request under id `"r1"`, listed by instance `"i1"`. -/
def c9Req : NetworkRequest :=
  { request_id := "r1"
    instance_id := "i1"
    url := "https://a/old"
    method := "GET"
    headers := []
    cookies := []
    post_data := none
    resource_type := none
    timestamp := 0 }

/-- A store already holding `c9Req`. -/
def c9State : InterceptorState :=
  { requests := fun k => if k = "r1" then some c9Req else none
    responses := fun _ => none
    instance_requests := fun k => if k = "i1" then some ["r1"] else none
    instance_filters := fun _ => none }

/-- A file entry carrying a different record under the same id `"r1"`. -/
def c9FileReq : ExportedRequest :=
  { request_id := "r1"
    url := "https://b/new"
    method := "POST"
    headers := []
    cookies := []
    post_data := none
    resource_type := none
    timestamp := 1 }

/-- An import file whose one request record collides with the store. -/
def c9Data : ExportData :=
  { requests := [c9FileReq]
    responses := [] }

/-- C9 counterexample: `import_from_json` does not skip an id already
present in the store — the previously stored record is overwritten with the
file's record (only the ordered id list append is guarded). -/
theorem import_overwrites_existing_record :
    (import_from_json c9State "i1" c9Data).requests "r1" ≠ c9State.requests "r1" := by
  decide

/-- C9 amended: `import_from_json` merges as follows: the stored record for
every id carried by the file is overwritten with the file's (last) record
for that id, records of ids absent from the file are unchanged, and the
instance's ordered id list only skips ids it already holds — it is extended
by new ids only, so existing entries keep their position and multiplicity. -/
theorem import_merge_characterization (st : InterceptorState) (instance_id : String)
    (data : ExportData) (rid : String) (l : List String)
    (hl : st.instance_requests instance_id = some l) :
    let st2 := import_from_json st instance_id data
    (st2.requests rid =
      (match (data.requests.filter (fun rd => rd.request_id = rid)).getLast? with
       | some rd => some (importRequestRecord instance_id rd)
       | none => st.requests rid)) ∧
    (st2.responses rid =
      (match (data.responses.filter (fun rd => rd.request_id = rid)).getLast? with
       | some rd => some (importResponseRecord rd)
       | none => st.responses rid)) ∧
    (∃ ext, st2.instance_requests instance_id = some (l ++ ext) ∧ ∀ r ∈ l, r ∉ ext) := by
  intro st2
  have h2 : st2 = data.responses.foldl importResponseStep
      (data.requests.foldl (importRequestStep instance_id) st) := by
    show import_from_json st instance_id data = _
    unfold import_from_json
    rw [hl]
  refine ⟨?_, ?_, ?_⟩
  · rw [h2, (importResponses_fold_others data.responses _).1,
      importRequests_fold_requests]
  · rw [h2, importResponses_fold_responses,
      importRequests_fold_responses instance_id data.requests st]
  · rw [h2, (importResponses_fold_others data.responses _).2]
    exact importRequests_fold_list instance_id data.requests st l hl

theorem import_merge_characterization_witness :
    c9State.instance_requests "i1" = some ["r1"] ∧
    (let st2 := import_from_json c9State "i1" c9Data
     (st2.requests "r1" =
       (match (c9Data.requests.filter (fun rd => rd.request_id = "r1")).getLast? with
        | some rd => some (importRequestRecord "i1" rd)
        | none => c9State.requests "r1")) ∧
     (st2.responses "r1" =
       (match (c9Data.responses.filter (fun rd => rd.request_id = "r1")).getLast? with
        | some rd => some (importResponseRecord rd)
        | none => c9State.responses "r1")) ∧
     (∃ ext, st2.instance_requests "i1" = some (["r1"] ++ ext) ∧ ∀ r ∈ ["r1"], r ∉ ext)) :=
  ⟨rfl, import_merge_characterization c9State "i1" c9Data "r1" ["r1"] rfl⟩

/-! ### Export / import round trip -/

/-- The body transformation the export/import round trip applies
(`resp.body if resp.body else None` on write, the same truthiness test on
read): a missing or empty body comes back missing, a non-empty body is
reproduced byte-for-byte. -/
def normalizeBody : Option (List Nat) → Option (List Nat)
  | none => none
  | some b => if b.isEmpty then none else some b

theorem getLast?_eq_of_all_eq {α : Type} (l : List α) (a : α) (hne : l ≠ [])
    (hall : ∀ x ∈ l, x = a) : l.getLast? = some a := by
  rw [List.getLast?_eq_getLast l hne]
  exact congrArg some (hall _ (List.getLast_mem hne))

/-- C5 amended: exporting instance `src` and importing the file into a fresh
instance id `dst` reproduces, for every id in `src`'s ordered list with a
stored request, the request record up to its `instance_id` field (rewritten
to `dst`), and the response record up to body normalization — a missing or
empty body comes back as missing (`None`), a non-empty body is byte-equal
after the base64 round trip — and the id is reachable from `dst`'s ordered
id list. -/
theorem export_import_reproduces_records (st : InterceptorState) (srcId dstId : String)
    (rid : String) (req : NetworkRequest) (ids : List String)
    (hids : st.instance_requests srcId = some ids) (hmem : rid ∈ ids)
    (hreq : st.requests rid = some req)
    (hco : Coherent st)
    (hbytes : ∀ resp, st.responses rid = some resp → ∀ b ∈ resp.body.getD [], b < 256) :
    let st2 := import_from_json st dstId (export_to_json st srcId)
    st2.requests rid = some { req with instance_id := dstId } ∧
    (∀ resp, st.responses rid = some resp →
      st2.responses rid = some { resp with body := normalizeBody resp.body }) ∧
    (∃ l', st2.instance_requests dstId = some l' ∧ rid ∈ l') := by
  intro st2
  obtain ⟨hcoR, hcoP⟩ := hco
  have hdataR : (export_to_json st srcId).requests =
      ids.filterMap (fun k => (st.requests k).map exportRequest) := by
    simp [export_to_json, hids]
  have hdataP : (export_to_json st srcId).responses =
      ids.filterMap (fun k => (st.responses k).map exportResponse) := by
    simp [export_to_json, hids]
  have hrid_eq : req.request_id = rid := hcoR rid req hreq
  have hpmem : exportRequest req ∈ (export_to_json st srcId).requests := by
    rw [hdataR]
    exact List.mem_filterMap.mpr ⟨rid, hmem, by rw [hreq]; rfl⟩
  have hpall : ∀ rd ∈ (export_to_json st srcId).requests,
      rd.request_id = rid → rd = exportRequest req := by
    intro rd hrd hid
    rw [hdataR] at hrd
    obtain ⟨k, hk, hmap⟩ := List.mem_filterMap.mp hrd
    obtain ⟨r', hr', hr'd⟩ := Option.map_eq_some'.mp hmap
    have hkr : r'.request_id = k := hcoR k r' hr'
    have hkid : k = rid := by
      rw [← hid, ← hr'd]
      exact hkr.symm
    rw [hkid] at hr'
    rw [hreq] at hr'
    cases hr'
    exact hr'd.symm
  obtain ⟨st0, hst2, hst0rq, hst0rp, l0, hst0l⟩ :
      ∃ st0 : InterceptorState,
        st2 = (export_to_json st srcId).responses.foldl importResponseStep
          ((export_to_json st srcId).requests.foldl (importRequestStep dstId) st0) ∧
        st0.requests = st.requests ∧ st0.responses = st.responses ∧
        ∃ l0, st0.instance_requests dstId = some l0 := by
    cases h0 : st.instance_requests dstId with
    | some l =>
        refine ⟨st, ?_, rfl, rfl, l, h0⟩
        show import_from_json st dstId (export_to_json st srcId) = _
        unfold import_from_json
        rw [h0]
    | none =>
        refine ⟨{ st with instance_requests := fupd st.instance_requests dstId [] }, ?_,
          rfl, rfl, [], by simp [fupd_self]⟩
        show import_from_json st dstId (export_to_json st srcId) = _
        unfold import_from_json
        rw [h0]
  have hmemf : exportRequest req ∈ (export_to_json st srcId).requests.filter
      (fun rd => rd.request_id = rid) :=
    List.mem_filter.mpr ⟨hpmem, by simp [exportRequest, hrid_eq]⟩
  have hlastR : ((export_to_json st srcId).requests.filter
      (fun rd => rd.request_id = rid)).getLast? = some (exportRequest req) := by
    refine getLast?_eq_of_all_eq _ _ (List.ne_nil_of_mem hmemf) ?_
    intro x hx
    obtain ⟨hx1, hx2⟩ := List.mem_filter.mp hx
    exact hpall x hx1 (by simpa using hx2)
  refine ⟨?_, ?_, ?_⟩
  · rw [hst2, (importResponses_fold_others _ _).1,
      importRequests_fold_requests dstId _ st0 rid, hlastR]
    rfl
  · intro resp hresp
    have hrid_eqP : resp.request_id = rid := hcoP rid resp hresp
    have hqmem : exportResponse resp ∈ (export_to_json st srcId).responses := by
      rw [hdataP]
      exact List.mem_filterMap.mpr ⟨rid, hmem, by rw [hresp]; rfl⟩
    have hqall : ∀ rd ∈ (export_to_json st srcId).responses,
        rd.request_id = rid → rd = exportResponse resp := by
      intro rd hrd hid
      rw [hdataP] at hrd
      obtain ⟨k, hk, hmap⟩ := List.mem_filterMap.mp hrd
      obtain ⟨r', hr', hr'd⟩ := Option.map_eq_some'.mp hmap
      have hkr : r'.request_id = k := hcoP k r' hr'
      have hkid : k = rid := by
        rw [← hid, ← hr'd]
        exact hkr.symm
      rw [hkid] at hr'
      rw [hresp] at hr'
      cases hr'
      exact hr'd.symm
    have hqmemf : exportResponse resp ∈ ((export_to_json st srcId).responses).filter
        (fun rd => rd.request_id = rid) :=
      List.mem_filter.mpr ⟨hqmem, by simp [exportResponse, hrid_eqP]⟩
    have hlastP : (((export_to_json st srcId).responses).filter
        (fun rd => rd.request_id = rid)).getLast? = some (exportResponse resp) := by
      refine getLast?_eq_of_all_eq _ _ (List.ne_nil_of_mem hqmemf) ?_
      intro x hx
      obtain ⟨hx1, hx2⟩ := List.mem_filter.mp hx
      exact hqall x hx1 (by simpa using hx2)
    rw [hst2, importResponses_fold_responses, hlastP]
    cases hb : resp.body with
    | none => simp [importResponseRecord, exportResponse, normalizeBody, hb]
    | some b =>
        by_cases hbe : b.isEmpty
        · simp [importResponseRecord, exportResponse, normalizeBody, hb, hbe]
        · have hbne : b ≠ [] := by simpa [List.isEmpty_iff] using hbe
          have henc : ¬ (b64encodeString b = "") := by
            intro hcontra
            exact b64encodeBytes_ne_nil b hbne (congrArg String.data hcontra)
          have hdec : b64decodeString (b64encodeString b) = b := by
            show b64decodeChars (String.mk (b64encodeBytes b)).toList = b
            exact b64decode_b64encode b
              (fun x hx => hbytes resp hresp x (by simp [hb, hx]))
          simp [importResponseRecord, exportResponse, normalizeBody, hb, hbe, henc, hdec]
  · rw [hst2, (importResponses_fold_others _ _).2]
    exact importRequests_fold_mem dstId _ st0 l0 rid hst0l
      (.inr ⟨exportRequest req, hpmem, by simp [exportRequest, hrid_eq]⟩)

/-- A stored request of instance `"a"`. -/
def c5Req : NetworkRequest :=
  { request_id := "r1"
    instance_id := "a"
    url := "https://a/x"
    method := "GET"
    headers := []
    cookies := []
    post_data := none
    resource_type := some "Document"
    timestamp := 2 }

/-- A stored response whose body is the empty byte string `b""`. -/
def c5EmptyResp : NetworkResponse :=
  { request_id := "r1"
    status := 200
    headers := []
    content_type := some "text/plain"
    body := some []
    timestamp := 3 }

/-- Instance `"a"` with one request and an empty-bodied response. -/
def c5State : InterceptorState :=
  { requests := fun k => if k = "r1" then some c5Req else none
    responses := fun k => if k = "r1" then some c5EmptyResp else none
    instance_requests := fun k => if k = "a" then some ["r1"] else none
    instance_filters := fun _ => none }

/-- C5 counterexample: exporting instance `"a"` and importing into the fresh
id `"b"` does not reproduce equal records — the request record's
`instance_id` becomes `"b"`, and the response's empty body (`b""`, falsy in
Python) is exported as `null` and comes back as `None`. -/
theorem export_import_alters_records :
    ((import_from_json c5State "b" (export_to_json c5State "a")).requests "r1" ≠
      c5State.requests "r1") ∧
    ((import_from_json c5State "b" (export_to_json c5State "a")).responses "r1" ≠
      c5State.responses "r1") := by
  exact ⟨by decide, by decide⟩

/-- A stored response with the non-empty body `b"hi"`. -/
def c5GoodResp : NetworkResponse :=
  { request_id := "r1"
    status := 200
    headers := []
    content_type := some "text/plain"
    body := some [104, 105]
    timestamp := 3 }

/-- Instance `"a"` with one request and a non-empty-bodied response. -/
def c5GoodState : InterceptorState :=
  { requests := fun k => if k = "r1" then some c5Req else none
    responses := fun k => if k = "r1" then some c5GoodResp else none
    instance_requests := fun k => if k = "a" then some ["r1"] else none
    instance_filters := fun _ => none }

theorem c5GoodState_coherent : Coherent c5GoodState := by
  constructor
  · intro k r hk
    by_cases h : k = "r1"
    · rw [c5GoodState] at hk
      simp only [h, if_pos rfl] at hk
      cases hk
      rw [h]
      rfl
    · simp [c5GoodState, h] at hk
  · intro k p hk
    by_cases h : k = "r1"
    · rw [c5GoodState] at hk
      simp only [h, if_pos rfl] at hk
      cases hk
      rw [h]
      rfl
    · simp [c5GoodState, h] at hk

theorem c5GoodState_bytes :
    ∀ resp, c5GoodState.responses "r1" = some resp → ∀ b ∈ resp.body.getD [], b < 256 := by
  intro resp hresp b hb
  have : resp = c5GoodResp := by
    simp [c5GoodState] at hresp
    exact hresp.symm
  rw [this] at hb
  simp [c5GoodResp] at hb
  omega

theorem export_import_reproduces_records_witness :
    (c5GoodState.instance_requests "a" = some ["r1"] ∧ "r1" ∈ (["r1"] : List String) ∧
     c5GoodState.requests "r1" = some c5Req ∧ Coherent c5GoodState ∧
     (∀ resp, c5GoodState.responses "r1" = some resp → ∀ b ∈ resp.body.getD [], b < 256)) ∧
    (let st2 := import_from_json c5GoodState "b" (export_to_json c5GoodState "a")
     st2.requests "r1" = some { c5Req with instance_id := "b" } ∧
     (∀ resp, c5GoodState.responses "r1" = some resp →
       st2.responses "r1" = some { resp with body := normalizeBody resp.body }) ∧
     (∃ l', st2.instance_requests "b" = some l' ∧ "r1" ∈ l')) :=
  ⟨⟨rfl, by decide, rfl, c5GoodState_coherent, c5GoodState_bytes⟩,
   export_import_reproduces_records c5GoodState "a" "b" "r1" c5Req ["r1"] rfl
     (by decide) rfl c5GoodState_coherent c5GoodState_bytes⟩

/-! ### The body-content filter skip -/

/-- C10: with a non-empty `response_contains` argument, a record whose
stored response has no body — or which has no stored response at all — is
not touched by the body-content filter: the filter chain decides exactly as
if `response_contains` had not been passed, and whenever the remaining
filters pass, the record is included in the match list (and in the returned
page when pagination covers it). -/
theorem response_contains_skips_missing_body (st : InterceptorState) (instance_id : String)
    (rid : String) (req : NetworkRequest) (q : SearchQuery)
    (hrid : rid ∈ (st.instance_requests instance_id).getD [])
    (hreq : st.requests rid = some req)
    (hbody : st.responses rid = none ∨
      ∃ resp, st.responses rid = some resp ∧ resp.body = none)
    (hrc : strTruthy q.response_contains = true) :
    searchKeep q req (st.responses rid) =
      searchKeep { q with response_contains := none } req (st.responses rid) ∧
    (searchKeep { q with response_contains := none } req (st.responses rid) = true →
      rid ∈ (searchMatches st instance_id q).map (fun m => m.request_id) ∧
      (q.offset = 0 → (searchMatches st instance_id q).length ≤ q.limit →
        rid ∈ (search_requests st instance_id q).results.map (fun m => m.request_id))) := by
  have hskip : searchKeep q req (st.responses rid) =
      searchKeep { q with response_contains := none } req (st.responses rid) := by
    rcases hbody with h | ⟨resp, hresp, hb⟩
    · simp [searchKeep, h, strTruthy]
    · simp [searchKeep, hresp, hb, strTruthy]
  refine ⟨hskip, ?_⟩
  intro hkeep
  have hkeepq : searchKeep q req (st.responses rid) = true := by rw [hskip]; exact hkeep
  have hmatch : rid ∈ (searchMatches st instance_id q).map (fun m => m.request_id) := by
    rw [List.mem_map]
    have hx : (⟨rid, req.url, req.method, (st.responses rid).map (fun r => r.status),
        req.resource_type⟩ : SearchResult) ∈ searchMatches st instance_id q := by
      unfold searchMatches
      rw [List.mem_filterMap]
      exact ⟨rid, hrid, by rw [hreq]; simp [hkeepq]⟩
    exact ⟨_, hx, rfl⟩
  refine ⟨hmatch, ?_⟩
  intro hoff hlim
  have : (search_requests st instance_id q).results = searchMatches st instance_id q := by
    simp [search_requests, hoff, List.take_of_length_le hlim]
  rw [this]
  exact hmatch

/-- A request of instance `"i9"` with no stored response. -/
def c10Req : NetworkRequest :=
  { request_id := "n1"
    instance_id := "i9"
    url := "https://example.com/api/n"
    method := "GET"
    headers := []
    cookies := []
    post_data := none
    resource_type := some "Fetch"
    timestamp := 0 }

/-- A store holding `c10Req` with no response record. -/
def c10State : InterceptorState :=
  { requests := fun k => if k = "n1" then some c10Req else none
    responses := fun _ => none
    instance_requests := fun k => if k = "i9" then some ["n1"] else none
    instance_filters := fun _ => none }

/-- The query `response_contains="token"`. -/
def c10Query : SearchQuery := { response_contains := some "token" }

theorem response_contains_skips_missing_body_witness :
    ("n1" ∈ (c10State.instance_requests "i9").getD [] ∧
     c10State.requests "n1" = some c10Req ∧
     (c10State.responses "n1" = none ∨
       ∃ resp, c10State.responses "n1" = some resp ∧ resp.body = none) ∧
     strTruthy c10Query.response_contains = true) ∧
    (searchKeep c10Query c10Req (c10State.responses "n1") =
       searchKeep { c10Query with response_contains := none } c10Req
         (c10State.responses "n1") ∧
     (searchKeep { c10Query with response_contains := none } c10Req
         (c10State.responses "n1") = true →
       "n1" ∈ (searchMatches c10State "i9" c10Query).map (fun m => m.request_id) ∧
       (c10Query.offset = 0 → (searchMatches c10State "i9" c10Query).length ≤ c10Query.limit →
         "n1" ∈ (search_requests c10State "i9" c10Query).results.map
           (fun m => m.request_id)))) :=
  ⟨⟨by decide, rfl, Or.inl rfl, by decide⟩,
   response_contains_skips_missing_body c10State "i9" "n1" c10Req c10Query
     (by decide) rfl (Or.inl rfl) (by decide)⟩

end StealthBrowser
